import Mathlib

/-!
Shallow embedding of the dev-proxy server (`server/index.ts`) of the
nextjs-saas repository, together with proofs of the specification claims
about it.

JavaScript strings are modelled as Lean `String`s (lists of characters).
The JS primitives used by the source (`String.prototype.includes`,
`String.prototype.replace` with a string pattern, which replaces only the
first occurrence, `String.prototype.startsWith`, `String.prototype.split`,
`Array.prototype.join`) are given faithful executable models below.
-/

set_option maxRecDepth 100000

namespace RofyProxy

/-- Model of JS `s.includes(pat)`: `pat` occurs as a contiguous substring. -/
def jsIncludes (s pat : String) : Bool :=
  decide (pat.data <:+: s.data)

/-- Replace the first (leftmost) occurrence of `pat` in a character list by
`repl`, as JS `String.prototype.replace` does with a string pattern.
If `pat` does not occur, the list is returned unchanged. -/
def replaceFirstAux (pat repl : List Char) : List Char → List Char
  | [] => []
  | c :: rest =>
    if pat.isPrefixOf (c :: rest) then repl ++ (c :: rest).drop pat.length
    else c :: replaceFirstAux pat repl rest

/-- Model of JS `s.replace(pat, repl)` with a string pattern: first
occurrence only. -/
def jsReplaceFirst (s pat repl : String) : String :=
  ⟨replaceFirstAux pat.data repl.data s.data⟩

/-- Model of JS `s.startsWith(pat)`. -/
def jsStartsWith (s pat : String) : Bool :=
  pat.data.isPrefixOf s.data

/- ------------------------------------------------------------------
   Navigation classifier (`isNavigationRequest`, source lines 126-139).
   A request is modelled by its method, its url and the four headers the
   function reads; a header that is absent on the wire is `none` and the
   source defaults it to `""` via `String(h[...] || "")`.
   ------------------------------------------------------------------ -/

structure Request where
  method : String
  url : String
  accept : Option String
  secFetchDest : Option String
  secFetchMode : Option String
  secFetchSite : Option String
deriving DecidableEq

def isNavigationRequest (req : Request) : Bool :=
  let accept := req.accept.getD ""
  let dest := req.secFetchDest.getD ""
  let mode := req.secFetchMode.getD ""
  let site := req.secFetchSite.getD ""
  req.method == "GET" &&
  jsIncludes accept "text/html" &&
  dest == "document" &&
  mode == "navigate" &&
  (site == "none" || site == "same-origin" || site == "cross-site")

/- ------------------------------------------------------------------
   HTML injector (`injectHeadTag`, source lines 141-147).
   ------------------------------------------------------------------ -/

/-- The sentinel marker attribute that detects a prior injection. -/
def rofySentinel : String := "data-rofy=\"console-capture\""

/-- The injected marker script tag (source line 143). -/
def scriptTag : String :=
  "<script type=\"module\" src=\"https://preview.rezzo.dev/js/reviewer.js\" data-rofy=\"console-capture\" defer></script>"

def injectHeadTag (html : String) : String :=
  if jsIncludes html rofySentinel then html
  else if jsIncludes html "</head>" then
    jsReplaceFirst html "</head>" (scriptTag ++ "</head>")
  else if jsIncludes html "</body>" then
    jsReplaceFirst html "</body>" (scriptTag ++ "</body>")
  else html ++ "\n" ++ scriptTag

/- ------------------------------------------------------------------
   Proxy response path (`proxyRes` handler, source lines 204-233).
   An upstream response carries a status code (`statusCode` may be absent
   on the TS type, and JS `|| 200` also maps `0` to `200`), its headers
   (Node presents incoming header names lowercased) and the body as the
   list of data chunks in arrival order.  The emitted response records the
   status, headers and the list of chunks written to the client: the
   passthrough branch pipes the chunks as received, the navigation branch
   buffers them all, injects, and performs a single write.
   ------------------------------------------------------------------ -/

structure UpstreamResponse where
  statusCode : Option Nat
  headers : List (String × String)
  chunks : List String
deriving DecidableEq

structure EmittedResponse where
  status : Nat
  headers : List (String × String)
  chunks : List String
deriving DecidableEq

/-- JS `proxyRes.statusCode || 200`. -/
def jsOrStatus (o : Option Nat) : Nat :=
  match o with
  | none => 200
  | some s => if s = 0 then 200 else s

/-- JS object key read `headers[k]`. -/
def hget : List (String × String) → String → Option String
  | [], _ => none
  | p :: rest, k => if p.1 == k then some p.2 else hget rest k

/-- JS object key assignment `headers[k] = v`: overwrite the entry if the
key is present, otherwise append it. -/
def hset : List (String × String) → String → String → List (String × String)
  | [], k, v => [(k, v)]
  | p :: rest, k, v => if p.1 == k then (k, v) :: rest else p :: hset rest k v

/-- JS `delete headers[k]`. -/
def hdel : List (String × String) → String → List (String × String)
  | [], _ => []
  | p :: rest, k => if p.1 == k then hdel rest k else p :: hdel rest k

def proxyResHandler (req : Request) (u : UpstreamResponse) : EmittedResponse :=
  if req.url = "/log-viewer.js" then
    { status := 404, headers := [], chunks := [] }
  else if !(isNavigationRequest req) then
    { status := jsOrStatus u.statusCode, headers := u.headers, chunks := u.chunks }
  else
    { status := jsOrStatus u.statusCode
      headers :=
        hset (hset (hdel u.headers "content-length")
            "content-type" "text/html; charset=utf-8")
          "cache-control" "no-store"
      chunks := [injectHeadTag (String.join u.chunks)] }

/- ------------------------------------------------------------------
   Guard middleware (source lines 267-279).
   ------------------------------------------------------------------ -/

def allowedRoutes : List String :=
  ["/api/rofyDownloadFiles", "/api/rofyUpdateFiles", "/api/restart-frontend",
   "/api/rofyLogs"]

/-- The guard decision: `true` means the request is handled locally
(`next()`), `false` means it is forwarded to the upstream proxy. -/
def guardHandledLocally (originalUrl : String) : Bool :=
  allowedRoutes.contains originalUrl || jsStartsWith originalUrl "/api/downloads/"

/- ------------------------------------------------------------------
   Text scrubber (`shrinkError`, source lines 37-55), on string input.
   The two regex tests are `^\s*\d+\s*\|` and `^\s*>` on a single line.
   ------------------------------------------------------------------ -/

/-- JS regex `\s` on characters that can occur inside one line. -/
def wsChar (c : Char) : Bool :=
  c == ' ' || c == '\t' || c == '\n' || c == '\r' || c == '\x0b' || c == '\x0c'

/-- Test of `/^\s*\d+\s*\|/` against one line. -/
def numPipeTest (l : List Char) : Bool :=
  let afterWs := l.dropWhile wsChar
  let digits := afterWs.takeWhile Char.isDigit
  let afterDigits := (afterWs.dropWhile Char.isDigit).dropWhile wsChar
  !digits.isEmpty && afterDigits.head? == some '|'

/-- Test of `/^\s*>/` against one line. -/
def arrowTest (l : List Char) : Bool :=
  (l.dropWhile wsChar).head? == some '>'

def isCodeframeLine (l : String) : Bool :=
  numPipeTest l.data || arrowTest l.data

/-- JS `text.split("\n")` on the character list: splits at every newline
and always yields at least one piece. -/
def splitLines : List Char → List String
  | [] => [""]
  | c :: rest =>
    if c = '\n' then "" :: splitLines rest
    else
      match splitLines rest with
      | [] => [⟨[c]⟩]
      | s :: ss => ⟨c :: s.data⟩ :: ss

/-- JS `text.split("\n")`. -/
def jsSplitNewline (text : String) : List String :=
  splitLines text.data

/-- The source expression `lines[0]` (`split` always yields at least one line). -/
def firstLineOf (text : String) : String :=
  (jsSplitNewline text).headD ""

/-- The joined codeframe block of the source (line 46). -/
def codeframeOf (text : String) : String :=
  String.intercalate "\n" ((jsSplitNewline text).filter isCodeframeLine)

/-- Source line 54, `[firstLine, codeframe].filter(Boolean).join("\n\n")`:
JS `Boolean` drops exactly the empty strings. -/
def shrinkError (text : String) : String :=
  String.intercalate "\n\n"
    (([firstLineOf text, codeframeOf text]).filter (fun s => s != ""))

/- ------------------------------------------------------------------
   Session identity middleware (source lines 149-154):
   the body is: when the cell is falsy, store the Host header, defaulted
   to the empty string when absent.
   The stored cell is `none` before any write; JS truthiness makes both
   `null` and `""` falsy.
   ------------------------------------------------------------------ -/

/-- JS falsiness of the `previewHost` cell (`null` and `""` are falsy). -/
def jsFalsyStr : Option String → Bool
  | none => true
  | some s => s.isEmpty

/-- One execution of the middleware body for a request whose `Host` header
is `host` (absent = `none`). -/
def previewHostStep (prev : Option String) (host : Option String) : Option String :=
  if jsFalsyStr prev then some (host.getD "") else prev

/-- The cell contents after a sequence of requests, starting from `null`. -/
def runPreviewHost (hosts : List (Option String)) : Option String :=
  hosts.foldl previewHostStep none

/- ------------------------------------------------------------------
   Process supervisor (source lines 88-123).  The straight-line JS calls
   `viteProcess.kill("SIGTERM")` / `spawn(...)` are modelled as events
   appended to a trace in execution order; `viteProcess` holds the pid of
   the single active child handle, if any.
   ------------------------------------------------------------------ -/

inductive SupEvent where
  | sigterm : Nat → SupEvent
  | spawned : Nat → SupEvent
deriving DecidableEq

structure SupState where
  viteProcess : Option Nat
  trace : List SupEvent
deriving DecidableEq

/-- Model of `startDevServer` (lines 88-111): spawn a fresh child and store its
handle.  `fresh` is the pid the OS assigns to the spawned process. -/
def startDevServer (fresh : Nat) (s : SupState) : SupState :=
  { viteProcess := some fresh, trace := s.trace ++ [SupEvent.spawned fresh] }

/-- Model of `stopDevServer` (lines 113-118): if a handle is active, signal SIGTERM
and clear it; otherwise do nothing. -/
def stopDevServer (s : SupState) : SupState :=
  match s.viteProcess with
  | some pid => { viteProcess := none, trace := s.trace ++ [SupEvent.sigterm pid] }
  | none => s

/-- Model of `restartDevServer` (lines 120-123): `stopDevServer(); startDevServer()`. -/
def restartDevServer (fresh : Nat) (s : SupState) : SupState :=
  startDevServer fresh (stopDevServer s)

/- ------------------------------------------------------------------
   Concrete sample inputs used by witnesses and counterexamples.
   ------------------------------------------------------------------ -/

/-- A well-formed HTML document without the sentinel. -/
def htmlSample : String := "<html><head></head><body></body></html>"

/-- A text that happens to contain the sentinel substring as ordinary
content, never produced by a prior injection. -/
def sentinelTextSample : String :=
  "ordinary text mentioning data-rofy=\"console-capture\" in prose"

/-- A top-level navigation request. -/
def navReq : Request :=
  ⟨"GET", "/", some "text/html,application/xhtml+xml", some "document",
    some "navigate", some "same-origin"⟩

/-- An upstream document response carrying headers that the rewrite must
override. -/
def navUpstream : UpstreamResponse :=
  ⟨some 201,
   [("content-length", "5"), ("cache-control", "max-age=100"), ("x-upstream", "yes")],
   ["<html><head>", "</head></html>"]⟩

/-- A non-navigation request for the locally claimed asset path. -/
def logViewerReq : Request :=
  ⟨"GET", "/log-viewer.js", some "application/json", none, none, none⟩

/-- A non-navigation API request. -/
def jsonReq : Request :=
  ⟨"GET", "/api/data", some "application/json", none, none, none⟩

/-- A representative upstream JSON response. -/
def jsonUpstream : UpstreamResponse :=
  ⟨some 200, [("content-type", "application/json")], ["[1,2", ",3]"]⟩

/-- A multi-line stack trace with one codeframe block. -/
def errSample : String :=
  "Error: boom\n    at foo (/app/x.js:1:1)\n  3 | const x = 1\n> 4 | bad\n    at bar (/app/y.js:2:2)"

/- ==================================================================
   Helper lemmas.
   ================================================================== -/

theorem jsIncludes_iff (s pat : String) :
    jsIncludes s pat = true ↔ pat.data <:+: s.data := by
  simp [jsIncludes]

theorem jsReplaceFirst_data (s pat repl : String) :
    (jsReplaceFirst s pat repl).data = replaceFirstAux pat.data repl.data s.data := rfl

/-- Where the first occurrence of `pat` sits, `replaceFirstAux` substitutes
`repl` and keeps everything around it. -/
theorem replaceFirstAux_spec (pat repl : List Char) (hp : ¬ pat = []) :
    ∀ l : List Char, pat <:+: l →
      ∃ a b, l = a ++ pat ++ b ∧ replaceFirstAux pat repl l = a ++ repl ++ b := by
  intro l
  induction l with
  | nil =>
    intro h
    rw [List.infix_nil] at h
    exact absurd h hp
  | cons c rest ih =>
    intro h
    by_cases hpre : pat.isPrefixOf (c :: rest) = true
    · obtain ⟨t, ht⟩ := List.isPrefixOf_iff_prefix.mp hpre
      refine ⟨[], t, by simp [← ht], ?_⟩
      simp only [replaceFirstAux, hpre, if_true, List.nil_append]
      rw [← ht, List.drop_left]
    · have hrest : pat <:+: rest := by
        rcases List.infix_cons_iff.mp h with hx | hx
        · exact absurd (List.isPrefixOf_iff_prefix.mpr hx) hpre
        · exact hx
      obtain ⟨a, b, hab, hres⟩ := ih hrest
      refine ⟨c :: a, b, by simp [hab], ?_⟩
      simp [replaceFirstAux, hpre, hres]

theorem sentinel_infix_scriptTag : rofySentinel.data <:+: scriptTag.data := by
  decide

/-- Every branch of the injector leaves the sentinel in the output. -/
theorem injectHeadTag_contains_sentinel (html : String) :
    rofySentinel.data <:+: (injectHeadTag html).data := by
  unfold injectHeadTag
  split_ifs with h1 h2 h3
  · exact (jsIncludes_iff _ _).mp h1
  · obtain ⟨a, b, _, hres⟩ :=
      replaceFirstAux_spec "</head>".data (scriptTag ++ "</head>").data
        (by decide) html.data ((jsIncludes_iff _ _).mp h2)
    rw [jsReplaceFirst_data, hres]
    have hmid : rofySentinel.data <:+: (scriptTag ++ "</head>").data := by
      rw [String.data_append]
      exact sentinel_infix_scriptTag.trans (List.prefix_append _ _).isInfix
    exact hmid.trans (List.infix_append _ _ _)
  · obtain ⟨a, b, _, hres⟩ :=
      replaceFirstAux_spec "</body>".data (scriptTag ++ "</body>").data
        (by decide) html.data ((jsIncludes_iff _ _).mp h3)
    rw [jsReplaceFirst_data, hres]
    have hmid : rofySentinel.data <:+: (scriptTag ++ "</body>").data := by
      rw [String.data_append]
      exact sentinel_infix_scriptTag.trans (List.prefix_append _ _).isInfix
    exact hmid.trans (List.infix_append _ _ _)
  · rw [String.data_append]
    exact sentinel_infix_scriptTag.trans (List.suffix_append _ _).isInfix

/-- The sentinel branch of the injector returns its input unchanged. -/
theorem injectHeadTag_eq_of_includes (s : String)
    (h : jsIncludes s rofySentinel = true) : injectHeadTag s = s := by
  unfold injectHeadTag
  simp [h]

/- ==================================================================
   Claim theorems.
   ================================================================== -/

/-- Claim C2: the HTML injector is idempotent: for every input string
`html`, `inject (inject html) = inject html`; the marker script tag is
never inserted twice, even when invoked on already-modified content. -/
theorem claim_C2 (html : String) :
    injectHeadTag (injectHeadTag html) = injectHeadTag html :=
  injectHeadTag_eq_of_includes _
    ((jsIncludes_iff _ _).mpr (injectHeadTag_contains_sentinel html))

/-- Claim C10: sentinel detection is a plain substring test: any input
containing the substring `data-rofy="console-capture"` anywhere, even as
ordinary text never produced by a prior injection, is returned unchanged
and no script tag is added. -/
theorem claim_C10 (html : String) (h : rofySentinel.data <:+: html.data) :
    injectHeadTag html = html :=
  injectHeadTag_eq_of_includes _ ((jsIncludes_iff _ _).mpr h)

/-- Witness for C10 at a concrete non-HTML text carrying the sentinel
substring as plain prose. -/
theorem claim_C10_witness :
    rofySentinel.data <:+: sentinelTextSample.data ∧
    injectHeadTag sentinelTextSample = sentinelTextSample :=
  ⟨by decide, claim_C10 sentinelTextSample (by decide)⟩

/-- Claim C4: on input free of the sentinel, the injector inserts the
marker tag by the cascade: immediately before an occurrence of `</head>`
when one exists, else immediately before an occurrence of `</body>`, else
appended after a newline with the content preserved, for arbitrary (not
necessarily well-formed HTML) input. -/
theorem claim_C4 (html : String) (hs : jsIncludes html rofySentinel = false) :
    (jsIncludes html "</head>" = true →
      ∃ a b, html.data = a ++ "</head>".data ++ b ∧
        (injectHeadTag html).data = a ++ (scriptTag.data ++ "</head>".data) ++ b) ∧
    (jsIncludes html "</head>" = false → jsIncludes html "</body>" = true →
      ∃ a b, html.data = a ++ "</body>".data ++ b ∧
        (injectHeadTag html).data = a ++ (scriptTag.data ++ "</body>".data) ++ b) ∧
    (jsIncludes html "</head>" = false → jsIncludes html "</body>" = false →
      injectHeadTag html = html ++ "\n" ++ scriptTag) := by
  refine ⟨?_, ?_, ?_⟩
  · intro h2
    obtain ⟨a, b, hab, hres⟩ :=
      replaceFirstAux_spec "</head>".data (scriptTag ++ "</head>").data
        (by decide) html.data ((jsIncludes_iff _ _).mp h2)
    refine ⟨a, b, hab, ?_⟩
    unfold injectHeadTag
    simp only [hs, h2, Bool.false_eq_true, if_false, if_true]
    exact hres
  · intro h2 h3
    obtain ⟨a, b, hab, hres⟩ :=
      replaceFirstAux_spec "</body>".data (scriptTag ++ "</body>").data
        (by decide) html.data ((jsIncludes_iff _ _).mp h3)
    refine ⟨a, b, hab, ?_⟩
    unfold injectHeadTag
    simp only [hs, h2, h3, Bool.false_eq_true, if_false, if_true]
    exact hres
  · intro h2 h3
    unfold injectHeadTag
    simp [hs, h2, h3]

/-- Witness for C4 at a well-formed document: the tag lands immediately
before `</head>`. -/
theorem claim_C4_witness :
    jsIncludes htmlSample rofySentinel = false ∧
    jsIncludes htmlSample "</head>" = true ∧
    (∃ a b, htmlSample.data = a ++ "</head>".data ++ b ∧
      (injectHeadTag htmlSample).data = a ++ (scriptTag.data ++ "</head>".data) ++ b) :=
  ⟨by decide, by decide, (claim_C4 htmlSample (by decide)).1 (by decide)⟩

/-- Claim C1: the navigation classifier returns `true` iff the method is
GET, `Accept` contains `text/html`, `Sec-Fetch-Dest` is `document`,
`Sec-Fetch-Mode` is `navigate` and `Sec-Fetch-Site` is one of `none`,
`same-origin`, `cross-site`; and whenever any of these four headers is
absent (defaulted to the empty string) the classifier returns `false`. -/
theorem claim_C1 (req : Request) :
    (isNavigationRequest req = true ↔
      (req.method = "GET" ∧ jsIncludes (req.accept.getD "") "text/html" = true ∧
        req.secFetchDest.getD "" = "document" ∧
        req.secFetchMode.getD "" = "navigate" ∧
        (req.secFetchSite.getD "" = "none" ∨ req.secFetchSite.getD "" = "same-origin" ∨
          req.secFetchSite.getD "" = "cross-site"))) ∧
    ((req.accept = none ∨ req.secFetchDest = none ∨ req.secFetchMode = none ∨
        req.secFetchSite = none) → isNavigationRequest req = false) := by
  have hAccept : jsIncludes "" "text/html" = false := by decide
  constructor
  · simp [isNavigationRequest, Bool.and_eq_true, Bool.or_eq_true, beq_iff_eq,
      and_assoc, or_assoc]
  · intro h
    rcases h with h | h | h | h <;>
      simp [isNavigationRequest, h, hAccept]

/-- Witness for C1 at a request missing the `Accept` header. -/
theorem claim_C1_witness :
    ((⟨"GET", "/", none, some "document", some "navigate", some "none"⟩ :
        Request).accept = none ∨
      (⟨"GET", "/", none, some "document", some "navigate", some "none"⟩ :
        Request).secFetchDest = none ∨
      (⟨"GET", "/", none, some "document", some "navigate", some "none"⟩ :
        Request).secFetchMode = none ∨
      (⟨"GET", "/", none, some "document", some "navigate", some "none"⟩ :
        Request).secFetchSite = none) ∧
    isNavigationRequest
      ⟨"GET", "/", none, some "document", some "navigate", some "none"⟩ = false :=
  ⟨Or.inl rfl,
    (claim_C1 ⟨"GET", "/", none, some "document", some "navigate", some "none"⟩).2
      (Or.inl rfl)⟩

/-- Claim C5: the guard handles a request locally iff its `originalUrl` is
an exact match of one of the four allow-listed paths or has the prefix
`/api/downloads/`; an otherwise-allowed path carrying a query string fails
the exact match and falls through to proxying. -/
theorem claim_C5 (url : String) :
    (guardHandledLocally url = true ↔
      (url = "/api/rofyDownloadFiles" ∨ url = "/api/rofyUpdateFiles" ∨
        url = "/api/restart-frontend" ∨ url = "/api/rofyLogs" ∨
        "/api/downloads/".data <+: url.data)) ∧
    guardHandledLocally "/api/restart-frontend?x=1" = false ∧
    guardHandledLocally "/api/restart-frontend" = true := by
  refine ⟨?_, by decide, by decide⟩
  simp [guardHandledLocally, allowedRoutes, jsStartsWith, Bool.or_eq_true,
    List.contains_cons, beq_iff_eq, or_assoc]

theorem hget_hset_self (hs : List (String × String)) (k v : String) :
    hget (hset hs k v) k = some v := by
  induction hs with
  | nil => simp [hset, hget]
  | cons p rest ih =>
    by_cases h : (p.1 == k) = true
    · simp [hset, hget, h]
    · simp [hset, hget, h, ih]

theorem hget_hset_ne (hs : List (String × String)) (k v k2 : String)
    (hne : ¬ k2 = k) : hget (hset hs k v) k2 = hget hs k2 := by
  induction hs with
  | nil =>
    have : ¬ (k == k2) = true := by
      simp [beq_iff_eq]
      exact fun e => hne e.symm
    simp [hset, hget, this]
  | cons p rest ih =>
    by_cases h : (p.1 == k) = true
    · have hk : p.1 = k := by simpa [beq_iff_eq] using h
      have h1 : ¬ (k == k2) = true := by
        simp [beq_iff_eq]
        exact fun e => hne e.symm
      have h2 : ¬ (p.1 == k2) = true := by
        simp [beq_iff_eq, hk]
        exact fun e => hne e.symm
      simp [hset, hget, h, h1, h2]
    · simp [hset, hget, h, ih]

theorem mem_hset (hs : List (String × String)) (k v : String)
    (q : String × String) (hq : q ∈ hset hs k v) : q ∈ hs ∨ q = (k, v) := by
  induction hs with
  | nil => exact Or.inr (by simpa [hset] using hq)
  | cons p rest ih =>
    by_cases h : (p.1 == k) = true
    · rw [hset] at hq
      simp only [h, if_true] at hq
      rcases List.mem_cons.mp hq with hq1 | hq1
      · exact Or.inr hq1
      · exact Or.inl (List.mem_cons_of_mem _ hq1)
    · rw [hset] at hq
      simp only [h, if_false] at hq
      rcases List.mem_cons.mp hq with hq1 | hq1
      · exact Or.inl (hq1 ▸ List.mem_cons_self _ _)
      · rcases ih hq1 with hq2 | hq2
        · exact Or.inl (List.mem_cons_of_mem _ hq2)
        · exact Or.inr hq2

theorem mem_hdel (hs : List (String × String)) (k : String)
    (q : String × String) (hq : q ∈ hdel hs k) : q ∈ hs ∧ ¬ q.1 = k := by
  induction hs with
  | nil => simp [hdel] at hq
  | cons p rest ih =>
    by_cases h : (p.1 == k) = true
    · rw [hdel] at hq
      simp only [h, if_true] at hq
      obtain ⟨hq1, hq2⟩ := ih hq
      exact ⟨List.mem_cons_of_mem _ hq1, hq2⟩
    · rw [hdel] at hq
      simp only [h, if_false] at hq
      rcases List.mem_cons.mp hq with hq1 | hq1
      · refine ⟨hq1 ▸ List.mem_cons_self _ _, ?_⟩
        subst hq1
        simpa [beq_iff_eq] using h
      · obtain ⟨hq2, hq3⟩ := ih hq1
        exact ⟨List.mem_cons_of_mem _ hq2, hq3⟩

/-- Claim C3: every rewritten navigation response drops `content-length`,
forces `cache-control: no-store` and `content-type: text/html;
charset=utf-8` regardless of the upstream headers, and preserves the
upstream status code. -/
theorem claim_C3 (req : Request) (u : UpstreamResponse)
    (hnav : isNavigationRequest req = true)
    (hurl : ¬ req.url = "/log-viewer.js") :
    (∀ q ∈ (proxyResHandler req u).headers, ¬ q.1 = "content-length") ∧
    hget (proxyResHandler req u).headers "cache-control" = some "no-store" ∧
    hget (proxyResHandler req u).headers "content-type" =
      some "text/html; charset=utf-8" ∧
    (∀ s, u.statusCode = some s → ¬ s = 0 → (proxyResHandler req u).status = s) := by
  have hpr : proxyResHandler req u =
      { status := jsOrStatus u.statusCode
        headers :=
          hset (hset (hdel u.headers "content-length")
              "content-type" "text/html; charset=utf-8")
            "cache-control" "no-store"
        chunks := [injectHeadTag (String.join u.chunks)] } := by
    rw [proxyResHandler, if_neg hurl]
    simp [hnav]
  rw [hpr]
  refine ⟨?_, ?_, ?_, ?_⟩
  · intro q hq
    rcases mem_hset _ _ _ _ hq with hq1 | hq1
    · rcases mem_hset _ _ _ _ hq1 with hq2 | hq2
      · exact (mem_hdel _ _ _ hq2).2
      · subst hq2
        decide
    · subst hq1
      decide
  · exact hget_hset_self _ _ _
  · rw [hget_hset_ne _ _ _ _ (by decide)]
    exact hget_hset_self _ _ _
  · intro s hs hs0
    simp [jsOrStatus, hs, hs0]

/-- Witness for C3 at a concrete navigation request and an upstream
response carrying `content-length` and a caching header. -/
theorem claim_C3_witness :
    isNavigationRequest navReq = true ∧
    ¬ navReq.url = "/log-viewer.js" ∧
    hget (proxyResHandler navReq navUpstream).headers "cache-control" =
      some "no-store" ∧
    hget (proxyResHandler navReq navUpstream).headers "content-type" =
      some "text/html; charset=utf-8" ∧
    (proxyResHandler navReq navUpstream).status = 201 :=
  ⟨by decide, by decide,
    (claim_C3 navReq navUpstream (by decide) (by decide)).2.1,
    (claim_C3 navReq navUpstream (by decide) (by decide)).2.2.1,
    (claim_C3 navReq navUpstream (by decide) (by decide)).2.2.2 201 rfl (by decide)⟩

/-- Counterexample to C6 as stated: the request for `/log-viewer.js` is
not a navigation, yet its upstream response is not passed through — the
handler replies 404 with no headers and no body (source lines 206-210). -/
theorem claim_C6_counterexample :
    isNavigationRequest logViewerReq = false ∧
    (proxyResHandler logViewerReq jsonUpstream).status = 404 ∧
    jsonUpstream.statusCode = some 200 ∧
    ¬ (proxyResHandler logViewerReq jsonUpstream).headers = jsonUpstream.headers ∧
    ¬ (proxyResHandler logViewerReq jsonUpstream).chunks = jsonUpstream.chunks := by
  refine ⟨by decide, by decide, rfl, by decide, by decide⟩

/-- Claim C6 as amended: for every proxied response whose originating
request is not a navigation and whose url is not `/log-viewer.js` (that
one path is answered 404 locally), the upstream headers are emitted
unchanged, the body chunks are written through one-by-one exactly as
received (no full-body buffering), and a nonzero upstream status code is
preserved. -/
theorem claim_C6_amended (req : Request) (u : UpstreamResponse)
    (hnav : isNavigationRequest req = false)
    (hurl : ¬ req.url = "/log-viewer.js") :
    (proxyResHandler req u).headers = u.headers ∧
    (proxyResHandler req u).chunks = u.chunks ∧
    (∀ s, u.statusCode = some s → ¬ s = 0 → (proxyResHandler req u).status = s) := by
  have hpr : proxyResHandler req u =
      { status := jsOrStatus u.statusCode, headers := u.headers,
        chunks := u.chunks } := by
    rw [proxyResHandler, if_neg hurl]
    simp [hnav]
  rw [hpr]
  exact ⟨rfl, rfl, fun s hs hs0 => by simp [jsOrStatus, hs, hs0]⟩

/-- Witness for the amended C6 at a representative JSON request. -/
theorem claim_C6_witness :
    isNavigationRequest jsonReq = false ∧
    ¬ jsonReq.url = "/log-viewer.js" ∧
    (proxyResHandler jsonReq jsonUpstream).headers = jsonUpstream.headers ∧
    (proxyResHandler jsonReq jsonUpstream).chunks = jsonUpstream.chunks ∧
    (proxyResHandler jsonReq jsonUpstream).status = 200 :=
  ⟨by decide, by decide,
    (claim_C6_amended jsonReq jsonUpstream (by decide) (by decide)).1,
    (claim_C6_amended jsonReq jsonUpstream (by decide) (by decide)).2.1,
    (claim_C6_amended jsonReq jsonUpstream (by decide) (by decide)).2.2 200 rfl
      (by decide)⟩

/-- Counterexample to C7 as stated: on an input whose first line is empty
and which has a codeframe, the output is the codeframe alone, not the
first line joined to the codeframe by a blank line (JS
`[firstLine, codeframe].filter(Boolean)` drops the empty first line). -/
theorem claim_C7_counterexample :
    ¬ codeframeOf "\n> boom" = "" ∧
    shrinkError "\n> boom" = "> boom" ∧
    ¬ shrinkError "\n> boom" =
        firstLineOf "\n> boom" ++ "\n\n" ++ codeframeOf "\n> boom" := by
  refine ⟨by decide, by decide, by decide⟩

/-- Claim C7 as amended: `shrinkError` keeps only the first line and the
codeframe lines (leading line number then a pipe, or a leading `>`),
dropping every other line including `at ...` stack frames; the two kept
components are joined by a blank line, but an empty component is dropped
from the join, so an empty first line yields the codeframe alone and an
absent codeframe yields the first line alone. -/
theorem claim_C7_amended (text : String) :
    (codeframeOf text = "" → shrinkError text = firstLineOf text) ∧
    (firstLineOf text = "" → shrinkError text = codeframeOf text) ∧
    (¬ firstLineOf text = "" → ¬ codeframeOf text = "" →
      shrinkError text = firstLineOf text ++ "\n\n" ++ codeframeOf text) ∧
    isCodeframeLine "    at foo (/app/server.js:10:5)" = false := by
  refine ⟨?_, ?_, ?_, by decide⟩
  · intro hcf
    by_cases hfl : firstLineOf text = ""
    · simp [shrinkError, hcf, hfl, String.intercalate]
    · simp [shrinkError, hcf, hfl, String.intercalate, String.intercalate.go]
  · intro hfl
    by_cases hcf : codeframeOf text = ""
    · simp [shrinkError, hcf, hfl, String.intercalate]
    · simp [shrinkError, hcf, hfl, String.intercalate, String.intercalate.go]
  · intro hfl hcf
    simp [shrinkError, hcf, hfl, String.intercalate, String.intercalate.go]

/-- Witness for the amended C7 at a stack trace with one codeframe block:
both components are nonempty and are joined by a blank line. -/
theorem claim_C7_witness :
    ¬ firstLineOf errSample = "" ∧
    ¬ codeframeOf errSample = "" ∧
    shrinkError errSample = firstLineOf errSample ++ "\n\n" ++ codeframeOf errSample :=
  ⟨by decide, by decide, (claim_C7_amended errSample).2.2.1 (by decide) (by decide)⟩

/-- Counterexample to C8 as stated: a first request without a `Host`
header stores the empty string; the empty string is falsy, so a second
request overwrites it — the field is written twice and the second writer
is not a no-op. -/
theorem claim_C8_counterexample :
    runPreviewHost [none] = some "" ∧
    runPreviewHost [none, some "preview-abc.example.dev"] =
      some "preview-abc.example.dev" ∧
    ¬ (some "" : Option String) = some "preview-abc.example.dev" := by
  refine ⟨rfl, rfl, by decide⟩

/-- Claim C8 as amended: the session identity is set from the `Host`
header of the first request, and once the stored value is a non-empty string
every later write is a no-op; only a stored empty string (first request
without a `Host` header) can still be overwritten, because the source
tests JS truthiness (`if (!previewHost)`) rather than `null`-ness. -/
theorem claim_C8_amended (first : Option String) (rest : List (Option String))
    (h : ¬ first.getD "" = "") :
    runPreviewHost (first :: rest) = some (first.getD "") := by
  have hstep : previewHostStep none first = some (first.getD "") := by
    simp [previewHostStep, jsFalsyStr]
  have hkeep : ∀ (l : List (Option String)) (s : String), ¬ s = "" →
      l.foldl previewHostStep (some s) = some s := by
    intro l
    induction l with
    | nil => intro s _; rfl
    | cons x xs ih =>
      intro s hs
      have hne : s.isEmpty = false := by
        rcases he : s.isEmpty with _ | _
        · rfl
        · exact absurd ((String.isEmpty_iff s).mp he) hs
      rw [List.foldl_cons]
      rw [show previewHostStep (some s) x = some s by
        simp [previewHostStep, jsFalsyStr, hne]]
      exact ih s hs
  rw [runPreviewHost, List.foldl_cons, hstep]
  exact hkeep rest _ h

/-- Witness for the amended C8: a non-empty first host survives later
requests, including ones carrying a different host. -/
theorem claim_C8_witness :
    ¬ (some "preview-abc.example.dev" : Option String).getD "" = "" ∧
    runPreviewHost
        [some "preview-abc.example.dev", none, some "other.example.dev"] =
      some ((some "preview-abc.example.dev" : Option String).getD "") :=
  ⟨by decide,
    claim_C8_amended (some "preview-abc.example.dev")
      [none, some "other.example.dev"] (by decide)⟩

/-- Claim C9: `restartDevServer` is `stopDevServer` followed by
`startDevServer`; when a child is active its SIGTERM strictly precedes the
spawn of the replacement in the event trace, and afterwards exactly the
fresh handle is the single active one. -/
theorem claim_C9 (s : SupState) (fresh pid : Nat)
    (h : s.viteProcess = some pid) :
    restartDevServer fresh s = startDevServer fresh (stopDevServer s) ∧
    (restartDevServer fresh s).trace =
      s.trace ++ [SupEvent.sigterm pid, SupEvent.spawned fresh] ∧
    (restartDevServer fresh s).viteProcess = some fresh := by
  refine ⟨rfl, ?_, rfl⟩
  simp [restartDevServer, startDevServer, stopDevServer, h]

/-- Witness for C9: restarting from a state with active pid 7 signals 7
before spawning 9 and leaves 9 as the single active handle. -/
theorem claim_C9_witness :
    (SupState.mk (some 7) []).viteProcess = some 7 ∧
    (restartDevServer 9 (SupState.mk (some 7) [])).trace =
      [SupEvent.sigterm 7, SupEvent.spawned 9] ∧
    (restartDevServer 9 (SupState.mk (some 7) [])).viteProcess = some 9 :=
  ⟨rfl, (claim_C9 (SupState.mk (some 7) []) 9 7 rfl).2.1,
    (claim_C9 (SupState.mk (some 7) []) 9 7 rfl).2.2⟩

end RofyProxy
